import Mathlib

/-!
# Verification of the kagenti A2A client core

Shallow embedding of the repository `psschwei/kagenti-client`:
the JSON-RPC transport (`core/connection.py`), the session store
(`core/session.py`) and the turn orchestrator
(`communication/sync_client.py`), together with proofs of the spec's
claims about them.

Python values exchanged with the agent are modelled by a small JSON
datatype; Python `datetime` values are modelled as integer timestamps in
seconds, so `timedelta(minutes=m)` is `60 * m`; exceptions are modelled
with `Except` and explicit outcome types.
-/

/-!
JSON / Python structured values.  Arrays and objects use the mutual
types `JArr` and `JObj` so that structural recursion is available;
`JObj` is an insertion-ordered association list, modelling a Python
`dict` with (assumed unique) string keys.
-/

mutual

inductive Json : Type where
  | null : Json
  | bool (b : Bool) : Json
  | num (n : Int) : Json
  | str (s : String) : Json
  | arr (xs : JArr) : Json
  | obj (kvs : JObj) : Json
  deriving DecidableEq

inductive JArr : Type where
  | nil : JArr
  | cons (hd : Json) (tl : JArr) : JArr
  deriving DecidableEq

inductive JObj : Type where
  | nil : JObj
  | cons (k : String) (v : Json) (tl : JObj) : JObj
  deriving DecidableEq

end

/-- Convert a Lean list of JSON values to a `JArr`. -/
def JArr.ofList : List Json → JArr
  | [] => .nil
  | x :: xs => .cons x (JArr.ofList xs)

/-- Convert a Lean association list to a `JObj`. -/
def JObj.ofList : List (String × Json) → JObj
  | [] => .nil
  | (k, v) :: xs => .cons k v (JObj.ofList xs)

/-- The `JArr` back to a Lean list (used to state iteration). -/
def JArr.toList : JArr → List Json
  | .nil => []
  | .cons x xs => x :: JArr.toList xs

/-- The `JObj` back to a Lean association list. -/
def JObj.toList : JObj → List (String × Json)
  | .nil => []
  | .cons k v xs => (k, v) :: JObj.toList xs

/-- Python `d[k]` / `d.get(k)` lookup on a dict: first matching key. -/
def JObj.find : JObj → String → Option Json
  | .nil, _ => none
  | .cons k v tl, key => if k = key then some v else JObj.find tl key

/-- Python `k in d` membership test on a dict (key membership). -/
def JObj.hasKey (o : JObj) (key : String) : Bool :=
  (o.find key).isSome

/-- Set one dict key: overwrite in place if present, else append. -/
def JObj.setKey : JObj → String → Json → JObj
  | .nil, k, v => .cons k v .nil
  | .cons k' v' tl, k, v =>
      if k' = k then .cons k' v tl else .cons k' v' (JObj.setKey tl k v)

/-- Python `d.update(d2)`: keys of `d2` overwrite existing keys in
place, new keys are appended in `d2`'s order (last write wins). -/
def JObj.update : JObj → JObj → JObj
  | base, .nil => base
  | base, .cons k v tl => JObj.update (JObj.setKey base k v) tl

/-- Membership of a JSON value in a `JArr` (Python `x in list`). -/
def JArr.member (xs : JArr) (x : Json) : Bool :=
  match xs with
  | .nil => false
  | .cons hd tl => hd == x || JArr.member tl x

/-- Boolean test for a leading match on character lists. -/
def charsStartWith : List Char → List Char → Bool
  | [], _ => true
  | _ :: _, [] => false
  | a :: as, b :: bs => a == b && charsStartWith as bs

/-- Boolean "occurs inside" test on character lists. -/
def charsContain : List Char → List Char → Bool
  | s, p =>
    charsStartWith p s ||
      match s with
      | [] => false
      | _ :: s' => charsContain s' p

/-- Python `needle in haystack` on strings (substring test). -/
def strContains (haystack needle : String) : Bool :=
  charsContain haystack.toList needle.toList

/-- Characters treated as whitespace by Python `str.strip()`. -/
def isPySpace (c : Char) : Bool :=
  c == ' ' || c == '\t' || c == '\n' || c == '\r' || c == '\x0b' || c == '\x0c'

/-- Python `s.strip()`: remove leading and trailing whitespace. -/
def pyStrip (s : String) : String :=
  ⟨((s.toList.dropWhile isPySpace).reverse.dropWhile isPySpace).reverse⟩

/-- Trailing-only whitespace trim, used to state the spec's wording
("trim trailing whitespace") for comparison with the code's `strip()`. -/
def trimTrailing (s : String) : String :=
  ⟨(s.toList.reverse.dropWhile isPySpace).reverse⟩

mutual

/-- Python `repr` of a structured value (as used for elements nested
inside a rendered container). -/
def pyRepr : Json → String
  | .null => "None"
  | .bool b => if b then "True" else "False"
  | .num n => toString n
  | .str s => "'" ++ s ++ "'"
  | .arr xs => "[" ++ pyReprArr xs ++ "]"
  | .obj kvs => "\x7b" ++ pyReprObj kvs ++ "\x7d"

/-- Comma-separated reprs of array elements. -/
def pyReprArr : JArr → String
  | .nil => ""
  | .cons x .nil => pyRepr x
  | .cons x (.cons y tl) => pyRepr x ++ ", " ++ pyReprArr (.cons y tl)

/-- Comma-separated `'k': v` reprs of dict items. -/
def pyReprObj : JObj → String
  | .nil => ""
  | .cons k v .nil => "'" ++ k ++ "': " ++ pyRepr v
  | .cons k v (.cons k' v' tl) =>
      "'" ++ k ++ "': " ++ pyRepr v ++ ", " ++ pyReprObj (.cons k' v' tl)

end

/-- Python `str(v)`: a string renders as itself, every other value
renders as its repr. -/
def pyStr : Json → String
  | .str s => s
  | v => pyRepr v


/-!
## Session store (`core/session.py`)

`datetime.now()` is modelled by an explicit `now : Int` argument
(seconds) at every call that reads the clock; `uuid.uuid4()` by explicit
generated-identifier arguments.  Python objects are mutable and shared:
the registry stores the same `Session` object the caller holds, so every
model operation that mutates a session both updates the registry entry
and returns the new value; Python object identity is modelled by the
`oid` field, assigned from a per-manager counter at creation.
-/

/-- The `ConversationTurn` (session.py): one turn of a conversation. -/
structure ConversationTurn where
  turn_id : String
  input_text : String
  output_text : Option String := none
  timestamp : Int := 0
  metadata : JObj := .nil
  error : Option String := none
  deriving DecidableEq

/-- The `Session` (session.py): one conversation with an agent.  `oid`
models Python object identity (which concrete object this is). -/
structure Session where
  oid : Nat
  session_id : String
  agent_url : String
  created_at : Int
  last_activity : Int
  turns : List ConversationTurn := []
  metadata : JObj := .nil
  is_active : Bool := true
  deriving DecidableEq

/-- The `Session.add_turn`: append a fresh turn (with generated id
`genTurnId` and timestamp `now`) and refresh `last_activity`. -/
def Session.add_turn (s : Session) (input_text : String)
    (output_text : Option String) (error : Option String)
    (metadata : Option JObj) (genTurnId : String) (now : Int) :
    ConversationTurn × Session :=
  let turn : ConversationTurn :=
    { turn_id := genTurnId
      input_text := input_text
      output_text := output_text
      error := error
      timestamp := now
      metadata := metadata.getD .nil }
  (turn, { s with turns := s.turns ++ [turn], last_activity := now })

/-- Python slice `xs[-n:]` for a non-negative `n` (`-0` is `0`, so
`n = 0` yields the whole list). -/
def pySliceLastN (xs : List ConversationTurn) (n : Nat) : List ConversationTurn :=
  if n = 0 then xs else xs.drop (xs.length - n)

/-- The `Session.get_conversation_history` (contents only): `None` returns a
copy of the turn list, `some n` the Python slice `turns[-n:]` (guarded
by `if self.turns else []`). -/
def Session.get_conversation_history (s : Session) (max_turns : Option Nat) :
    List ConversationTurn :=
  match max_turns with
  | none => s.turns
  | some n => if s.turns ≠ [] then pySliceLastN s.turns n else []

/-- The `Session.is_expired`: `now - last_activity > timedelta(minutes=t)`,
with times in seconds so the delta is `60 * t`. -/
def Session.is_expired (s : Session) (timeout_minutes : Int) (now : Int) : Bool :=
  decide (now - s.last_activity > 60 * timeout_minutes)

/-- Python `ValueError` raised by `create_session` on a duplicate id. -/
structure ValueErrorExc where
  msg : String
  deriving DecidableEq

/-- The `SessionManager`: the registry (`_sessions`, an insertion-ordered
dict), the default timeout, and the object-identity counter. -/
structure SessionManager where
  sessions : List (String × Session) := []
  default_timeout : Int := 60
  nextOid : Nat := 0
  deriving DecidableEq

/-- Registry lookup `self._sessions.get(session_id)`. -/
def SessionManager.lookup (sm : SessionManager) (sid : String) : Option Session :=
  match sm.sessions.find? (fun p => p.1 = sid) with
  | some p => some p.2
  | none => none

/-- Store an updated session object back under its (existing) key,
modelling in-place mutation of the shared Python object. -/
def SessionManager.store (sm : SessionManager) (sid : String) (s : Session) :
    SessionManager :=
  { sm with
    sessions := sm.sessions.map (fun p => if p.1 = sid then (sid, s) else p) }

/-- The `SessionManager.create_session`: duplicate-checked insertion under
the lock.  Returns the raised `ValueError` or the created session,
paired with the post-state (unchanged on error). -/
def SessionManager.create_session (sm : SessionManager) (agent_url : String)
    (session_id : Option String) (metadata : Option JObj)
    (genSessionId : String) (now : Int) :
    Except ValueErrorExc Session × SessionManager :=
  let sid := session_id.getD genSessionId
  if (sm.lookup sid).isSome then
    (.error ⟨"Session " ++ sid ++ " already exists"⟩, sm)
  else
    let s : Session :=
      { oid := sm.nextOid
        session_id := sid
        agent_url := agent_url
        created_at := now
        last_activity := now
        turns := []
        metadata := metadata.getD .nil
        is_active := true }
    (.ok s, { sm with sessions := sm.sessions ++ [(sid, s)], nextOid := sm.nextOid + 1 })

/-- The `SessionManager.get_session`: pure lookup. -/
def SessionManager.get_session (sm : SessionManager) (sid : String) : Option Session :=
  sm.lookup sid

/-- The `SessionManager.get_or_create_session`, executed sequentially (no
interleaving between its `get_session` and `create_session` steps): on a
hit it refreshes `last_activity` (mutating the shared object), on a miss
it delegates to `create_session`. -/
def SessionManager.get_or_create_session (sm : SessionManager) (sid : String)
    (agent_url : String) (metadata : Option JObj) (now : Int) :
    Except ValueErrorExc Session × SessionManager :=
  match sm.get_session sid with
  | some s =>
      let s' := { s with last_activity := now }
      (.ok s', sm.store sid s')
  | none => sm.create_session agent_url (some sid) metadata "" now

/-- Effective timeout of `cleanup_expired_sessions`: the Python
expression `timeout_minutes or self.default_timeout`, under which both
`None` and `0` fall back to the default. -/
def effectiveTimeout (timeout_minutes : Option Int) (dflt : Int) : Int :=
  match timeout_minutes with
  | none => dflt
  | some t => if t = 0 then dflt else t

/-- The sweep loop of `cleanup_expired_sessions` over the registry
snapshot, in iteration order: returns the removed ids, the surviving
registry, and (to make the `session.is_active = False` mutation that
precedes each `del` observable to callers still holding the object) the
removed session objects as mutated. -/
def cleanupLoop (timeout now : Int) :
    List (String × Session) → List String × List (String × Session) × List Session
  | [] => ([], [], [])
  | (sid, s) :: rest =>
    let (ids, keep, marked) := cleanupLoop timeout now rest
    if s.is_expired timeout now then
      (sid :: ids, keep, { s with is_active := false } :: marked)
    else
      (ids, (sid, s) :: keep, marked)

/-- The `SessionManager.cleanup_expired_sessions`: sweep with the effective
timeout; returns exactly the ids removed by this call. -/
def SessionManager.cleanup_expired_sessions (sm : SessionManager)
    (timeout_minutes : Option Int) (now : Int) :
    List String × SessionManager :=
  let timeout := effectiveTimeout timeout_minutes sm.default_timeout
  let (ids, keep, _) := cleanupLoop timeout now sm.sessions
  (ids, { sm with sessions := keep })

/-- The removed-session objects of the same sweep, after the
`is_active = False` mark written just before each removal. -/
def SessionManager.cleanup_marked (sm : SessionManager)
    (timeout_minutes : Option Int) (now : Int) : List Session :=
  let timeout := effectiveTimeout timeout_minutes sm.default_timeout
  (cleanupLoop timeout now sm.sessions).2.2

/-!
## Transport (`core/connection.py`)

`send_request` is modelled as a function of the request parameters, the
generated correlation id, and an abstract HTTP reply.  The reply
abstracts `httpx.post` + `response.json()`: a non-2xx status (the
`raise_for_status` exception), a connection-level failure, a 2xx reply
with an empty body, a 2xx body that is not valid JSON, or a 2xx body
parsed into a JSON value.  The `try` block's exception flow is modelled
explicitly; in particular an `A2AConnectionError` raised inside the
`try` block is itself caught by the final `except Exception` clause and
re-wrapped, which loses its `error_code`.
-/

/-- A JSON-RPC id: Python `Union[str, int]`. -/
inductive RpcId where
  | s (v : String)
  | i (v : Int)
  deriving DecidableEq

/-- The JSON-RPC request envelope `JsonRpcRequest` (models/requests.py)
after successful validation. -/
structure JsonRpcRequest where
  jsonrpc : String := "2.0"
  method : String
  params : Option Json := none
  id : RpcId
  deriving DecidableEq

/-- Pydantic construction `JsonRpcRequest(method=..., params=...,
id=request_id)`.  The call site always passes `id` explicitly, so the
field's `default_factory` is never consulted: an absent `request_id`
arrives as an explicit `None`, which fails validation of
`id : Union[str, int]` with a `ValidationError`. -/
def JsonRpcRequest.construct (method : String) (params : Option Json)
    (request_id : Option RpcId) : Except String JsonRpcRequest :=
  match request_id with
  | none =>
      .error "1 validation error for JsonRpcRequest: id: input is not a valid string or integer"
  | some rid => .ok { method := method, params := params, id := rid }

/-- The `JsonRpcError` (models/responses.py) after validation. -/
structure JsonRpcError where
  code : Int
  message : String
  data : Option Json := none
  deriving DecidableEq

/-- The `JsonRpcResponse` (models/responses.py) after validation. -/
structure JsonRpcResponse where
  jsonrpc : String := "2.0"
  id : Option RpcId := none
  result : Option Json := none
  error : Option JsonRpcError := none
  deriving DecidableEq

/-- Validate a JSON value as a `JsonRpcError` (pydantic). -/
def validateJsonRpcError (j : Json) : Except String JsonRpcError :=
  match j with
  | .obj kvs =>
    match kvs.find "code", kvs.find "message" with
    | some (.num c), some (.str m) =>
        .ok { code := c, message := m, data := kvs.find "data" }
    | _, _ => .error "validation error for JsonRpcError"
  | _ => .error "validation error for JsonRpcError"

/-- Validate a parsed JSON body as a `JsonRpcResponse`
(`JsonRpcResponse(**response_data)`): the body must be an object;
`jsonrpc` defaults to "2.0", `id` is an optional string-or-integer,
`result` is any value (JSON `null` becomes `None`), `error` is an
optional `JsonRpcError`. -/
def validateJsonRpcResponse (j : Json) : Except String JsonRpcResponse :=
  match j with
  | .obj kvs =>
    let jsonrpcOk : Except String String :=
      match kvs.find "jsonrpc" with
      | none => .ok "2.0"
      | some (.str v) => .ok v
      | some _ => .error "validation error for JsonRpcResponse: jsonrpc"
    let idOk : Except String (Option RpcId) :=
      match kvs.find "id" with
      | none => .ok none
      | some .null => .ok none
      | some (.str v) => .ok (some (.s v))
      | some (.num v) => .ok (some (.i v))
      | some _ => .error "validation error for JsonRpcResponse: id"
    let resultOk : Option Json :=
      match kvs.find "result" with
      | none => none
      | some .null => none
      | some v => some v
    let errorOk : Except String (Option JsonRpcError) :=
      match kvs.find "error" with
      | none => .ok none
      | some .null => .ok none
      | some v =>
        match validateJsonRpcError v with
        | .ok e => .ok (some e)
        | .error m => .error m
    match jsonrpcOk, idOk, errorOk with
    | .ok v, .ok i, .ok e =>
        .ok { jsonrpc := v, id := i, result := resultOk, error := e }
    | .error m, _, _ => .error m
    | _, .error m, _ => .error m
    | _, _, .error m => .error m
  | _ => .error "argument after ** must be a mapping"

/-- Abstract outcome of the HTTP POST and body decoding, the inputs the
`try` block of `send_request` reacts to. -/
inductive HttpReply where
  | statusError (status : Nat) (text : String)
  | transportFail (msg : String)
  | emptyBody
  | badJson (msg : String)
  | goodJson (j : Json)
  deriving DecidableEq

/-- The `A2AConnectionError`: message plus optional protocol error code. -/
structure A2AConnectionError where
  message : String
  error_code : Option Int := none
  deriving DecidableEq

/-- Overall outcome of `A2AConnection.send_request`.  `pydanticError` is
the `ValidationError` raised while building the envelope, before the
`try` block — it is not an `A2AConnectionError`. -/
inductive SendReqOutcome where
  | pydanticError (msg : String)
  | connError (e : A2AConnectionError)
  | ok (resp : JsonRpcResponse)
  deriving DecidableEq

/-- Exceptions that can leave the `try` block of `send_request`, before
the `except` clauses translate them. -/
inductive SendReqExc where
  | httpStatus (status : Nat) (text : String)
  | requestErr (msg : String)
  | jsonDecode (msg : String)
  | connExc (e : A2AConnectionError)
  | otherExc (msg : String)
  deriving DecidableEq

/-- The `try` block of `send_request`: empty-body check, JSON-RPC
response validation, protocol-error check. -/
def sendRequestTry (reply : HttpReply) : Except SendReqExc JsonRpcResponse :=
  match reply with
  | .statusError st text => .error (.httpStatus st text)
  | .transportFail m => .error (.requestErr m)
  | .emptyBody => .error (.connExc ⟨"Empty response from server", none⟩)
  | .badJson m => .error (.jsonDecode m)
  | .goodJson j =>
    match validateJsonRpcResponse j with
    | .error m => .error (.otherExc m)
    | .ok resp =>
      match resp.error with
      | some e =>
          .error (.connExc ⟨"JSON-RPC error: " ++ e.message, some e.code⟩)
      | none => .ok resp

/-- The `except` clauses of `send_request`, in source order:
`httpx.HTTPStatusError`, `httpx.RequestError`, `json.JSONDecodeError`,
then the catch-all `except Exception` — which also catches the
`A2AConnectionError`s raised inside the `try` block and re-wraps them as
`"Unexpected error: " + str(e)` with no error code. -/
def sendRequestExcept (e : SendReqExc) : A2AConnectionError :=
  match e with
  | .httpStatus st text => ⟨"HTTP error " ++ toString st ++ ": " ++ text, none⟩
  | .requestErr m => ⟨"Request error: " ++ m, none⟩
  | .jsonDecode m => ⟨"Invalid JSON response: " ++ m, none⟩
  | .connExc ce => ⟨"Unexpected error: " ++ ce.message, none⟩
  | .otherExc m => ⟨"Unexpected error: " ++ m, none⟩

/-- The `A2AConnection.send_request`: build the envelope (which raises a
`ValidationError` outside the `try` block when `request_id` is absent),
then run the `try` block on the HTTP reply and translate any escaping
exception. -/
def send_request (method : String) (params : Option Json)
    (request_id : Option RpcId) (reply : HttpReply) : SendReqOutcome :=
  match JsonRpcRequest.construct method params request_id with
  | .error m => .pydanticError m
  | .ok _ =>
    match sendRequestTry reply with
    | .ok resp => .ok resp
    | .error e => .connError (sendRequestExcept e)

/-!
## Turn orchestrator (`communication/sync_client.py`)

The artifact-text extraction (lines 119-131 of sync_client.py) runs on
an arbitrary transport result, so the Python operations it uses — `in`,
subscription, iteration, `.get`, string concatenation — are modelled
with their exception behaviour on every value shape.
-/

/-- A Python exception raised by the extraction code (`TypeError`,
`AttributeError`, `KeyError`); carries `str(e)`. -/
structure PyExc where
  msg : String
  deriving DecidableEq

/-- Python `needle in v` for a string needle: key membership on a dict,
substring test on a string, element membership on a list, `TypeError`
otherwise. -/
def pyIn (needle : String) (v : Json) : Except PyExc Bool :=
  match v with
  | .obj kvs => .ok (kvs.hasKey needle)
  | .str s => .ok (strContains s needle)
  | .arr xs => .ok (xs.member (.str needle))
  | _ => .error ⟨"argument of type is not iterable"⟩

/-- Python `v[key]` for a string key: dict lookup (`KeyError` when
missing), `TypeError` on strings, lists and everything else. -/
def pySubscript (v : Json) (key : String) : Except PyExc Json :=
  match v with
  | .obj kvs =>
    match kvs.find key with
    | some x => .ok x
    | none => .error ⟨"KeyError: " ++ key⟩
  | .str _ => .error ⟨"string indices must be integers"⟩
  | .arr _ => .error ⟨"list indices must be integers or slices, not str"⟩
  | _ => .error ⟨"object is not subscriptable"⟩

/-- Python `for x in v`: a list yields its elements, a string its
characters (as one-character strings), a dict its keys; other values
raise `TypeError`. -/
def pyIter (v : Json) : Except PyExc (List Json) :=
  match v with
  | .arr xs => .ok xs.toList
  | .str s => .ok (s.toList.map (fun c => .str ⟨[c]⟩))
  | .obj kvs => .ok (kvs.toList.map (fun p => .str p.1))
  | _ => .error ⟨"object is not iterable"⟩

/-- The inner-loop body of the extraction: `if part.get("kind") ==
"text" and "text" in part: output_text += part["text"] + "\n"`.
`.get` on a non-dict raises `AttributeError`; concatenating a non-string
text value raises `TypeError`. -/
def extractPartStep (acc : String) (part : Json) : Except PyExc String :=
  match part with
  | .obj kvs =>
    match kvs.find "kind" with
    | some (.str "text") =>
      match kvs.find "text" with
      | some (.str t) => .ok (acc ++ t ++ "\n")
      | some _ => .error ⟨"can only concatenate str to str"⟩
      | none => .ok acc
    | _ => .ok acc
  | _ => .error ⟨"object has no attribute get"⟩

/-- Fold `extractPartStep` over the parts of one artifact. -/
def extractPartsLoop (acc : String) : List Json → Except PyExc String
  | [] => .ok acc
  | p :: ps =>
    match extractPartStep acc p with
    | .error e => .error e
    | .ok acc' => extractPartsLoop acc' ps

/-- The outer-loop body: `if "parts" in artifact: for part in
artifact["parts"]: ...`. -/
def extractArtifactStep (acc : String) (artifact : Json) : Except PyExc String :=
  match pyIn "parts" artifact with
  | .error e => .error e
  | .ok false => .ok acc
  | .ok true =>
    match pySubscript artifact "parts" with
    | .error e => .error e
    | .ok partsVal =>
      match pyIter partsVal with
      | .error e => .error e
      | .ok parts => extractPartsLoop acc parts

/-- Fold `extractArtifactStep` over the artifacts. -/
def extractArtifactsLoop (acc : String) : List Json → Except PyExc String
  | [] => .ok acc
  | a :: rest =>
    match extractArtifactStep acc a with
    | .error e => .error e
    | .ok acc' => extractArtifactsLoop acc' rest

/-- The output extraction of `send_message` (sync_client.py 119-131):
concatenate `text + "\n"` over text parts of all artifacts, `strip()`
the accumulation, and fall back to `str(response.result)` when the
stripped text is empty. -/
def extractOutput (result : Json) : Except PyExc String :=
  match pyIn "artifacts" result with
  | .error e => .error e
  | .ok check =>
    let accE : Except PyExc String :=
      if check then
        match pySubscript result "artifacts" with
        | .error e => .error e
        | .ok artifactsVal =>
          match pyIter artifactsVal with
          | .error e => .error e
          | .ok artifacts => extractArtifactsLoop "" artifacts
      else .ok ""
    match accE with
    | .error e => .error e
    | .ok acc =>
      let trimmed := pyStrip acc
      .ok (if trimmed = "" then pyStr result else trimmed)

/-- The `TaskStatus` (models/responses.py). -/
inductive TaskStatus where
  | pending
  | in_progress
  | completed
  | failed
  deriving DecidableEq

/-- The `TaskResponse` (models/responses.py): the caller-facing outcome.
`metadata` must validate as an optional dict. -/
structure TaskResponse where
  task_id : String
  session_id : String
  status : TaskStatus
  output : Option String := none
  error_message : Option String := none
  metadata : Option JObj := none
  deriving DecidableEq

/-- Failure class of a raised `SyncClientError`: the
"Connection error" branch (wrapping an `A2AConnectionError`) versus the
catch-all "Unexpected error" branch. -/
inductive SyncFailureClass where
  | connection
  | unexpected
  deriving DecidableEq

/-- The `SyncClientError` as raised by `send_message`. -/
structure SyncClientError where
  kind : SyncFailureClass
  message : String
  deriving DecidableEq

/-- Apply a mutation to the last element of a turn list: the `turn`
local variable in `send_message` is the same object as the last element
of `session.turns`, so mutating it mutates the history in place. -/
def mapLastTurn (f : ConversationTurn → ConversationTurn) :
    List ConversationTurn → List ConversationTurn
  | [] => []
  | [t] => [f t]
  | t :: ts => t :: mapLastTurn f ts

/-- The `turn.error = str(e)` on the open (last) turn of a session. -/
def Session.finalizeTurnError (s : Session) (msg : String) : Session :=
  { s with turns := mapLastTurn (fun t => { t with error := some msg }) s.turns }

/-- The `turn.output_text = task_response.output; turn.metadata.update(...)`
on the open (last) turn of a session. -/
def Session.finalizeTurnSuccess (s : Session) (out : String) (md : JObj) : Session :=
  { s with
    turns := mapLastTurn
      (fun t => { t with output_text := some out, metadata := t.metadata.update md })
      s.turns }

/-- The request parameters of `send_message`:
`MessageSendRequest(message=Message(role="user",
parts=[MessagePart(kind="text", text=message)],
messageId=<generated>)).model_dump(by_alias=True)`, then
`request_params.update(kwargs)` (caller keys win). -/
def buildRequestParams (msg mid : String) (kwargs : JObj) : Json :=
  .obj (JObj.update
    (JObj.ofList
      [("message", .obj (JObj.ofList
        [("role", .str "user"),
         ("parts", .arr (JArr.ofList
           [.obj (JObj.ofList
             [("kind", .str "text"), ("text", .str msg), ("data", .null)])])),
         ("messageId", .str mid)]))])
    kwargs)

/-- The `SyncClient.send_message`.  Inputs: the session-manager state, the
client's `agent_url`, the message text, the optional session id, the
caller's extra keyword parameters, the three generated identifiers
(session id, turn id, message id), the clock, and the abstract HTTP
reply consumed by the transport.  Returns the raised `SyncClientError`
or the `TaskResponse`, together with the post-state of the session
manager.  The `except` clauses are modelled faithfully: an
`A2AConnectionError` from the transport takes the "Connection error"
branch, every other exception raised inside the `try` block — including
the `SyncClientError("Agent returned empty result")` and pydantic
validation failures — takes the catch-all "Unexpected error" branch;
both record the failure text on the open turn when one exists. -/
def send_message (sm : SessionManager) (agent_url : String) (message : String)
    (session_id : Option String) (kwargs : JObj)
    (genSessionId genTurnId genMessageId : String) (now : Int)
    (reply : HttpReply) :
    Except SyncClientError TaskResponse × SessionManager :=
  let sid := session_id.getD genSessionId
  match sm.get_or_create_session sid agent_url none now with
  | (.error e, sm1) =>
      (.error ⟨.unexpected, "Unexpected error: " ++ e.msg⟩, sm1)
  | (.ok session, sm1) =>
    let (turn, session1) := session.add_turn message none none none genTurnId now
    let sm2 := sm1.store sid session1
    let params := buildRequestParams message genMessageId kwargs
    match send_request "message/send" (some params) (some (.s turn.turn_id)) reply with
    | .pydanticError m =>
        (.error ⟨.unexpected, "Unexpected error: " ++ m⟩,
         sm2.store sid (session1.finalizeTurnError m))
    | .connError ce =>
        (.error ⟨.connection, "Connection error: " ++ ce.message⟩,
         sm2.store sid (session1.finalizeTurnError ce.message))
    | .ok resp =>
      match resp.result with
      | none =>
          (.error ⟨.unexpected, "Unexpected error: Agent returned empty result"⟩,
           sm2.store sid (session1.finalizeTurnError "Agent returned empty result"))
      | some result =>
        match extractOutput result with
        | .error pe =>
            (.error ⟨.unexpected, "Unexpected error: " ++ pe.msg⟩,
             sm2.store sid (session1.finalizeTurnError pe.msg))
        | .ok output_text =>
          match result with
          | .obj kvs =>
            let task_response : TaskResponse :=
              { task_id := turn.turn_id
                session_id := sid
                status := .completed
                output := some output_text
                metadata := some kvs }
            (.ok task_response,
             sm2.store sid (session1.finalizeTurnSuccess output_text kvs))
          | _ =>
            let m := "1 validation error for TaskResponse: metadata: input is not a valid dict"
            (.error ⟨.unexpected, "Unexpected error: " ++ m⟩,
             sm2.store sid (session1.finalizeTurnError m))

/-!
## Concurrency model for `get_or_create_session`

`get_or_create_session` takes the registry lock twice: once inside
`get_session` and once inside `create_session`.  Each lock-protected
section is one atomic step; a schedule interleaves the steps of two
threads that both call `get_or_create_session(sid, url)`.  The
`last_activity` write on a hit happens outside the lock in the source,
but it touches no registry structure, so folding it into the lookup step
loses no interleaving relevant to the registry.
-/

/-- Progress of one thread through `get_or_create_session`: before the
locked lookup, between lookup and locked create, or finished with the
call's result. -/
inductive GocPhase where
  | start
  | midCreate
  | done (r : Except ValueErrorExc Session)

/-- One atomic (lock-protected) step of a thread running
`get_or_create_session sid url` at time `now`. -/
def gocThreadStep (sm : SessionManager) (sid url : String) (now : Int) :
    GocPhase → GocPhase × SessionManager
  | .start =>
    match sm.get_session sid with
    | some s =>
        let s' := { s with last_activity := now }
        (.done (.ok s'), sm.store sid s')
    | none => (.midCreate, sm)
  | .midCreate =>
    match sm.create_session url (some sid) none "" now with
    | (.error e, sm') => (.done (.error e), sm')
    | (.ok s, sm') => (.done (.ok s), sm')
  | .done r => (.done r, sm)

/-- Run two threads under a schedule; `true` steps thread 1, `false`
steps thread 2 (a step of a finished thread is a no-op). -/
def runTwoGoc (sid url : String) (now : Int) :
    List Bool → SessionManager → GocPhase → GocPhase →
    SessionManager × GocPhase × GocPhase
  | [], sm, t1, t2 => (sm, t1, t2)
  | b :: rest, sm, t1, t2 =>
    if b then
      let (t1', sm') := gocThreadStep sm sid url now t1
      runTwoGoc sid url now rest sm' t1' t2
    else
      let (t2', sm') := gocThreadStep sm sid url now t2
      runTwoGoc sid url now rest sm' t1 t2'

/-!
## Heap model for `get_conversation_history`

Python lists are mutable objects; `get_conversation_history` returns a
fresh list object on every branch (`self.turns.copy()`, the slice
`self.turns[-max_turns:]`, or the literal `[]`), so mutating the
returned list cannot alter the session's stored turns.  To state that,
turn-list objects live in a heap (a list of cells addressed by index);
the session's turns sit in the cell at address `a`, and the operation
allocates a new cell for its result and returns its address.
-/

/-- The `Session.get_conversation_history` over the list heap: reads the
turn list stored at address `a`, allocates the result (a copy, a slice,
or a fresh empty list — all new objects) and returns the extended heap
with the fresh address. -/
def getConversationHistoryH (heap : List (List ConversationTurn)) (a : Nat)
    (max_turns : Option Nat) : List (List ConversationTurn) × Nat :=
  let turns := heap.getD a []
  let res :=
    match max_turns with
    | none => turns
    | some n => if turns ≠ [] then pySliceLastN turns n else []
  (heap ++ [res], heap.length)

/-!
## Helper lemmas
-/

theorem String.ne_empty_append_left {a : String} (b : String) (h : a ≠ "") :
    a ++ b ≠ "" := by
  intro hc
  apply h
  cases a with
  | mk da =>
    cases b with
    | mk db =>
      have hd : da ++ db = [] := congrArg String.data hc
      have hda : da = [] := (List.append_eq_nil.mp hd).1
      rw [hda]

theorem pyStr_obj_ne_empty (kvs : JObj) : pyStr (.obj kvs) ≠ "" := by
  have he : pyStr (.obj kvs) = ("\x7b" ++ pyReprObj kvs) ++ "\x7d" := rfl
  rw [he]
  exact String.ne_empty_append_left _ (String.ne_empty_append_left _ (by decide))

theorem find?_map_setEntry (l : List (String × Session)) (sid : String) (s : Session)
    (h : (l.find? (fun p => p.1 = sid)).isSome) :
    ((l.map (fun p => if p.1 = sid then (sid, s) else p)).find?
      (fun p => p.1 = sid)) = some (sid, s) := by
  induction l with
  | nil => simp at h
  | cons hd tl ih =>
    by_cases hk : hd.1 = sid
    · rw [List.map_cons, if_pos hk, List.find?_cons_of_pos]
      simp
    · rw [List.find?_cons_of_neg _ (by simpa using hk)] at h
      rw [List.map_cons, if_neg hk, List.find?_cons_of_neg _ (by simpa using hk)]
      exact ih h

theorem find?_append_new (l : List (String × Session)) (sid : String) (s : Session)
    (h : l.find? (fun p => p.1 = sid) = none) :
    (l ++ [(sid, s)]).find? (fun p => p.1 = sid) = some (sid, s) := by
  induction l with
  | nil => simp
  | cons hd tl ih =>
    by_cases hk : hd.1 = sid
    · rw [List.find?_cons_of_pos _ (by simpa using hk)] at h
      exact absurd h (by simp)
    · rw [List.find?_cons_of_neg _ (by simpa using hk)] at h
      rw [List.cons_append, List.find?_cons_of_neg _ (by simpa using hk)]
      exact ih h

theorem lookup_store_hit (sm : SessionManager) (sid : String) (x s : Session)
    (h : sm.lookup sid = some x) :
    (sm.store sid s).lookup sid = some s := by
  unfold SessionManager.lookup SessionManager.store at *
  simp only
  cases hf : sm.sessions.find? (fun p => p.1 = sid) with
  | none => rw [hf] at h; simp at h
  | some p =>
    have : (sm.sessions.find? (fun p => p.1 = sid)).isSome := by rw [hf]; rfl
    rw [find?_map_setEntry sm.sessions sid s this]

theorem lookup_append_new (sm : SessionManager) (sid : String) (s : Session)
    (dflt : Int) (oid : Nat)
    (h : sm.lookup sid = none) :
    SessionManager.lookup
      { sessions := sm.sessions ++ [(sid, s)], default_timeout := dflt, nextOid := oid }
      sid = some s := by
  unfold SessionManager.lookup at *
  cases hf : sm.sessions.find? (fun p => p.1 = sid) with
  | some p => rw [hf] at h; simp at h
  | none => simp only; rw [find?_append_new sm.sessions sid s hf]

theorem get_or_create_session_ok (sm : SessionManager) (sid url : String)
    (md : Option JObj) (now : Int) :
    ∃ s sm', sm.get_or_create_session sid url md now = (.ok s, sm') ∧
      sm'.lookup sid = some s := by
  unfold SessionManager.get_or_create_session SessionManager.get_session
  cases h : sm.lookup sid with
  | some s =>
    refine ⟨{ s with last_activity := now }, _, rfl, ?_⟩
    exact lookup_store_hit sm sid s _ h
  | none =>
    unfold SessionManager.create_session
    simp only [Option.getD_some, h, Option.isSome_none, Bool.false_eq_true, if_false,
      ite_false]
    refine ⟨_, _, rfl, ?_⟩
    exact lookup_append_new sm sid _ _ _ h

theorem mapLastTurn_concat (f : ConversationTurn → ConversationTurn)
    (l : List ConversationTurn) (t : ConversationTurn) :
    mapLastTurn f (l ++ [t]) = l ++ [f t] := by
  induction l with
  | nil => rfl
  | cons x l ih =>
    cases l with
    | nil => rfl
    | cons y l' => exact congrArg (List.cons x) ih

theorem extractOutput_obj_ok_ne_empty (kvs : JObj) (out : String)
    (h : extractOutput (.obj kvs) = .ok out) : out ≠ "" := by
  unfold extractOutput at h
  simp only [pyIn] at h
  split at h
  · exact absurd h (by simp)
  · rename_i acc heq
    rw [Except.ok.injEq] at h
    by_cases hs : pyStrip acc = ""
    · rw [if_pos hs] at h
      rw [← h]
      exact pyStr_obj_ne_empty kvs
    · rw [if_neg hs] at h
      rw [← h]
      exact hs

theorem sendRequestExcept_ne_empty (exc : SendReqExc) :
    (sendRequestExcept exc).message ≠ "" := by
  cases exc with
  | httpStatus st text =>
    exact String.ne_empty_append_left text
      (String.ne_empty_append_left ": "
        (String.ne_empty_append_left (toString st) (by decide)))
  | requestErr m => exact String.ne_empty_append_left m (by decide)
  | jsonDecode m => exact String.ne_empty_append_left m (by decide)
  | connExc ce => exact String.ne_empty_append_left ce.message (by decide)
  | otherExc m => exact String.ne_empty_append_left m (by decide)

theorem send_request_connError_ne_empty (method : String) (params : Option Json)
    (rid : RpcId) (reply : HttpReply) (e : A2AConnectionError)
    (h : send_request method params (some rid) reply = .connError e) :
    e.message ≠ "" := by
  unfold send_request JsonRpcRequest.construct at h
  cases htry : sendRequestTry reply with
  | ok resp => rw [htry] at h; exact absurd h (by simp)
  | error exc =>
    rw [htry] at h
    simp only [SendReqOutcome.connError.injEq] at h
    rw [← h]
    exact sendRequestExcept_ne_empty exc

/-!
## Claims
-/

/-- C8: for every session-store state containing a session with id `X`,
`create_session` with explicit id `X` fails with the duplicate-session
`ValueError` ("Session X already exists"), and the state — the registry
mapping and the stored Session object — is returned completely
unchanged. -/
theorem create_session_duplicate_fails_unchanged (sm : SessionManager)
    (url X : String) (md : Option JObj) (gid : String) (now : Int) (s : Session)
    (h : sm.lookup X = some s) :
    sm.create_session url (some X) md gid now =
      (.error ⟨"Session " ++ X ++ " already exists"⟩, sm) := by
  unfold SessionManager.create_session
  simp [h]

/-- A store already holding a session with id "s1". -/
def dupSession : Session :=
  { oid := 0, session_id := "s1", agent_url := "http://a", created_at := 0, last_activity := 0 }

/-- A one-session store used to instantiate the C8 theorem. -/
def dupStore : SessionManager :=
  { sessions := [("s1", dupSession)], default_timeout := 60, nextOid := 1 }

theorem create_session_duplicate_fails_unchanged_witness :
    dupStore.lookup "s1" = some dupSession ∧
    dupStore.create_session "http://b" (some "s1") none "g" 5 =
      (.error ⟨"Session " ++ "s1" ++ " already exists"⟩, dupStore) :=
  ⟨rfl, create_session_duplicate_fails_unchanged dupStore "http://b" "s1" none "g" 5 dupSession rfl⟩

/-- C6: the claim says an absent correlation id is replaced by a freshly
generated token and the call does not fail.  In the source the absent id
is passed to pydantic as an explicit `None`, which `Union[str, int]`
rejects before `default_factory` is consulted, so `send_request` with no
`request_id` always raises a `ValidationError` — the call fails exactly
because of the absent id, for every method, params and reply. -/
theorem send_request_absent_id_always_fails (method : String)
    (params : Option Json) (reply : HttpReply) :
    send_request method params none reply =
      .pydanticError
        "1 validation error for JsonRpcRequest: id: input is not a valid string or integer" :=
  rfl

/-- The 2xx JSON-RPC reply whose body carries a protocol-level error
object, used to exhibit the C2 divergence. -/
def c2ErrorBody : Json :=
  .obj (JObj.ofList [("jsonrpc", .str "2.0"), ("id", .num 1),
    ("error", .obj (JObj.ofList [("code", .num (-32001)), ("message", .str "boom")]))])

/-- C2: a 2xx response whose body validates to a JSON-RPC response with
error object `{code: -32001, message: "boom"}` makes `send_request` fail
with an `A2AConnectionError` whose message contains the protocol
message, but whose `error_code` is `None`, not `-32001`: the error
raised at the protocol-error check is swallowed by the function's own
catch-all `except Exception` clause and re-wrapped without the code. -/
theorem send_request_rpc_error_drops_code :
    validateJsonRpcResponse c2ErrorBody =
      .ok { jsonrpc := "2.0", id := some (.i 1), result := none,
            error := some { code := -32001, message := "boom", data := none } } ∧
    send_request "message/send" (some (.obj .nil)) (some (.s "r1")) (.goodJson c2ErrorBody) =
      .connError { message := "Unexpected error: JSON-RPC error: boom", error_code := none } ∧
    strContains "Unexpected error: JSON-RPC error: boom" "boom" = true :=
  ⟨rfl, rfl, rfl⟩

theorem getD_concat_self (l : List (List ConversationTurn))
    (res : List ConversationTurn) :
    (l ++ [res]).getD l.length [] = res := by
  rw [List.getD_eq_getElem?_getD, List.getElem?_concat_length]
  rfl

theorem getD_set_concat (l : List (List ConversationTurn))
    (res xs : List ConversationTurn) (a : Nat) (h : a < l.length) :
    ((l ++ [res]).set l.length xs).getD a [] = l.getD a [] := by
  rw [List.getD_eq_getElem?_getD, List.getElem?_set_ne (by omega),
      List.getElem?_append_left h, List.getD_eq_getElem?_getD]

/-- C10: `get_conversation_history` at a valid turn-list address `a`:
the returned list is a fresh object (its address differs from `a`, and
overwriting it leaves the stored turns unchanged, for every `max_turns`
mode); with `max_turns` absent the contents are a copy of the whole turn
list; with `max_turns = n` the contents are the whole list when `n = 0`
(Python `turns[-0:]`) and the last `n` turns in insertion order when
`n ≥ 1`. -/
theorem get_conversation_history_fresh_copy
    (heap : List (List ConversationTurn)) (a : Nat) (h : a < heap.length) :
    (∀ mt, (getConversationHistoryH heap a mt).2 ≠ a) ∧
    (∀ mt xs,
      ((getConversationHistoryH heap a mt).1.set
        (getConversationHistoryH heap a mt).2 xs).getD a []
        = heap.getD a []) ∧
    ((getConversationHistoryH heap a none).1.getD
      (getConversationHistoryH heap a none).2 [] = heap.getD a []) ∧
    (∀ n, (getConversationHistoryH heap a (some n)).1.getD
      (getConversationHistoryH heap a (some n)).2 []
      = if n = 0 then heap.getD a []
        else (heap.getD a []).drop ((heap.getD a []).length - n)) := by
  refine ⟨?_, ?_, ?_, ?_⟩
  · intro mt
    simp only [getConversationHistoryH]
    omega
  · intro mt xs
    simp only [getConversationHistoryH]
    exact getD_set_concat heap _ xs a h
  · simp only [getConversationHistoryH]
    exact getD_concat_self heap _
  · intro n
    simp only [getConversationHistoryH]
    rw [getD_concat_self heap _]
    unfold pySliceLastN
    by_cases he : heap.getD a [] = []
    · rw [if_neg (fun hc => hc he), he]
      split <;> simp
    · rw [if_pos he]

theorem get_conversation_history_fresh_copy_witness :
    0 < ([[{ turn_id := "t", input_text := "hi" }]] :
      List (List ConversationTurn)).length ∧
    ((∀ mt, (getConversationHistoryH [[{ turn_id := "t", input_text := "hi" }]] 0 mt).2 ≠ 0) ∧
    (∀ mt xs,
      ((getConversationHistoryH [[{ turn_id := "t", input_text := "hi" }]] 0 mt).1.set
        (getConversationHistoryH [[{ turn_id := "t", input_text := "hi" }]] 0 mt).2 xs).getD 0 []
        = ([[{ turn_id := "t", input_text := "hi" }]] :
            List (List ConversationTurn)).getD 0 []) ∧
    ((getConversationHistoryH [[{ turn_id := "t", input_text := "hi" }]] 0 none).1.getD
      (getConversationHistoryH [[{ turn_id := "t", input_text := "hi" }]] 0 none).2 []
      = ([[{ turn_id := "t", input_text := "hi" }]] :
          List (List ConversationTurn)).getD 0 []) ∧
    (∀ n, (getConversationHistoryH [[{ turn_id := "t", input_text := "hi" }]] 0 (some n)).1.getD
      (getConversationHistoryH [[{ turn_id := "t", input_text := "hi" }]] 0 (some n)).2 []
      = if n = 0 then ([[{ turn_id := "t", input_text := "hi" }]] :
          List (List ConversationTurn)).getD 0 []
        else (([[{ turn_id := "t", input_text := "hi" }]] :
          List (List ConversationTurn)).getD 0 []).drop
          ((([[{ turn_id := "t", input_text := "hi" }]] :
            List (List ConversationTurn)).getD 0 []).length - n))) :=
  ⟨by decide, get_conversation_history_fresh_copy _ 0 (by decide)⟩

theorem store_store_lookup (sm1 : SessionManager) (sid : String) (s0 x y : Session)
    (hlk : sm1.lookup sid = some s0) :
    ((sm1.store sid x).store sid y).lookup sid = some y :=
  lookup_store_hit _ _ _ _ (lookup_store_hit _ _ _ _ hlk)

theorem finalizeTurnError_turns (s0 : Session) (turn0 : ConversationTurn)
    (now : Int) (m : String) :
    (Session.finalizeTurnError
      { s0 with turns := s0.turns ++ [turn0], last_activity := now } m).turns
      = s0.turns ++ [{ turn0 with error := some m }] := by
  unfold Session.finalizeTurnError
  exact mapLastTurn_concat _ _ _


theorem finalizeTurnSuccess_turns (s0 : Session) (turn0 : ConversationTurn)
    (now : Int) (out : String) (md : JObj) :
    (Session.finalizeTurnSuccess
      { s0 with turns := s0.turns ++ [turn0], last_activity := now } out md).turns
      = s0.turns ++ [{ turn0 with output_text := some out, metadata := turn0.metadata.update md }] := by
  unfold Session.finalizeTurnSuccess
  exact mapLastTurn_concat _ _ _

/-- The open turn created at the start of a `send_message` call. -/
def openTurn (msg gT : String) (now : Int) : ConversationTurn :=
  { turn_id := gT
    input_text := msg
    output_text := none
    timestamp := now
    metadata := .nil
    error := none }

/-- The resolved session immediately after `add_turn` appended the open
turn. -/
def sessionAfterTurn (s0 : Session) (msg gT : String) (now : Int) : Session :=
  { s0 with turns := s0.turns ++ [openTurn msg gT now], last_activity := now }

/-- The `TaskResponse` constructed on the success path of
`send_message`. -/
def successResponse (gT sid out : String) (kvsr : JObj) : TaskResponse :=
  { task_id := gT
    session_id := sid
    status := .completed
    output := some out
    error_message := none
    metadata := some kvsr }

/-- The open turn after the failure text `m` has been recorded. -/
def erroredTurn (msg gT : String) (now : Int) (m : String) : ConversationTurn :=
  { turn_id := gT
    input_text := msg
    output_text := none
    timestamp := now
    metadata := .nil
    error := some m }

/-- The open turn after the output text and result metadata have been
recorded. -/
def succeededTurn (msg gT : String) (now : Int) (out : String) (md : JObj) :
    ConversationTurn :=
  { turn_id := gT
    input_text := msg
    output_text := some out
    timestamp := now
    metadata := JObj.update .nil md
    error := none }

/-- The pydantic message raised when `TaskResponse(metadata=...)` is
given a non-dict result. -/
def trValidationMsg : String :=
  "1 validation error for TaskResponse: metadata: input is not a valid dict"

/-- Anatomy of one `send_message` call: the session is resolved via
`get_or_create_session` (which, sequentially, always succeeds), exactly
one turn is appended to it, and the call finishes in exactly one of two
ways — a returned `TaskResponse` with the non-empty output recorded on
the turn and no error, or a raised `SyncClientError` with the failure
text recorded on the turn and no output; a transport-level
`A2AConnectionError` always lands in the second branch with its message
on the turn and the "Connection error" wrapper re-raised. -/
theorem send_message_anatomy (sm : SessionManager) (url msg : String)
    (sid? : Option String) (kwargs : JObj) (gS gT gM : String) (now : Int)
    (reply : HttpReply) :
    ∃ s0 sm1 s1 tfin,
      sm.get_or_create_session (sid?.getD gS) url none now = (.ok s0, sm1) ∧
      (send_message sm url msg sid? kwargs gS gT gM now reply).2.lookup (sid?.getD gS)
        = some s1 ∧
      s1.turns = s0.turns ++ [tfin] ∧
      tfin.turn_id = gT ∧ tfin.input_text = msg ∧
      ((∃ resp out kvsr,
          send_request "message/send" (some (buildRequestParams msg gM kwargs))
            (some (RpcId.s gT)) reply = .ok resp ∧
          (send_message sm url msg sid? kwargs gS gT gM now reply).1 =
            .ok (successResponse gT (sid?.getD gS) out kvsr) ∧
          tfin.output_text = some out ∧ tfin.error = none ∧ out ≠ "") ∨
       (∃ emsg e,
          (send_message sm url msg sid? kwargs gS gT gM now reply).1 = .error e ∧
          tfin.error = some emsg ∧ tfin.output_text = none ∧
          (∀ ce, send_request "message/send" (some (buildRequestParams msg gM kwargs))
              (some (RpcId.s gT)) reply = .connError ce →
            emsg = ce.message ∧ e = ⟨.connection, "Connection error: " ++ ce.message⟩))) := by
  obtain ⟨s0, sm1, hgoc, hlk⟩ :=
    get_or_create_session_ok sm (sid?.getD gS) url none now
  refine ⟨s0, sm1, ?_⟩
  cases hsr : send_request "message/send" (some (buildRequestParams msg gM kwargs))
      (some (RpcId.s gT)) reply with
  | pydanticError m =>
    refine ⟨(sessionAfterTurn s0 msg gT now).finalizeTurnError m,
      erroredTurn msg gT now m, hgoc, ?_, ?_, rfl, rfl,
      Or.inr ⟨m, ⟨.unexpected, "Unexpected error: " ++ m⟩, ?_, rfl, rfl, ?_⟩⟩
    · simp only [send_message, Session.add_turn, hgoc, hsr]
      exact store_store_lookup sm1 _ s0 _ _ hlk
    · exact finalizeTurnError_turns s0 _ now m
    · simp only [send_message, Session.add_turn, hgoc, hsr]
    · intro ce hce
      exact absurd hce (by simp)
  | connError ce0 =>
    refine ⟨(sessionAfterTurn s0 msg gT now).finalizeTurnError ce0.message,
      erroredTurn msg gT now ce0.message, hgoc, ?_, ?_, rfl, rfl,
      Or.inr ⟨ce0.message, ⟨.connection, "Connection error: " ++ ce0.message⟩,
        ?_, rfl, rfl, ?_⟩⟩
    · simp only [send_message, Session.add_turn, hgoc, hsr]
      exact store_store_lookup sm1 _ s0 _ _ hlk
    · exact finalizeTurnError_turns s0 _ now ce0.message
    · simp only [send_message, Session.add_turn, hgoc, hsr]
    · intro ce hce
      simp only [SendReqOutcome.connError.injEq] at hce
      subst hce
      exact ⟨rfl, rfl⟩
  | ok resp =>
    cases hres : resp.result with
    | none =>
      refine ⟨(sessionAfterTurn s0 msg gT now).finalizeTurnError
          "Agent returned empty result",
        erroredTurn msg gT now "Agent returned empty result", hgoc, ?_, ?_, rfl, rfl,
        Or.inr ⟨"Agent returned empty result",
          ⟨.unexpected, "Unexpected error: Agent returned empty result"⟩,
          ?_, rfl, rfl, ?_⟩⟩
      · simp only [send_message, Session.add_turn, hgoc, hsr, hres]
        exact store_store_lookup sm1 _ s0 _ _ hlk
      · exact finalizeTurnError_turns s0 _ now _
      · simp only [send_message, Session.add_turn, hgoc, hsr, hres]
      · intro ce hce
        exact absurd hce (by simp)
    | some result =>
      cases hex : extractOutput result with
      | error pe =>
        refine ⟨(sessionAfterTurn s0 msg gT now).finalizeTurnError pe.msg,
          erroredTurn msg gT now pe.msg, hgoc, ?_, ?_, rfl, rfl,
          Or.inr ⟨pe.msg, ⟨.unexpected, "Unexpected error: " ++ pe.msg⟩,
            ?_, rfl, rfl, ?_⟩⟩
        · simp only [send_message, Session.add_turn, hgoc, hsr, hres, hex]
          exact store_store_lookup sm1 _ s0 _ _ hlk
        · exact finalizeTurnError_turns s0 _ now _
        · simp only [send_message, Session.add_turn, hgoc, hsr, hres, hex]
        · intro ce hce
          exact absurd hce (by simp)
      | ok out =>
        cases result
        case obj kvs =>
          refine ⟨(sessionAfterTurn s0 msg gT now).finalizeTurnSuccess out kvs,
            succeededTurn msg gT now out kvs, hgoc, ?_, ?_, rfl, rfl,
            Or.inl ⟨resp, out, kvs, rfl, ?_, rfl, rfl, ?_⟩⟩
          · simp only [send_message, Session.add_turn, hgoc, hsr, hres, hex]
            exact store_store_lookup sm1 _ s0 _ _ hlk
          · exact finalizeTurnSuccess_turns s0 _ now out kvs
          · simp only [send_message, Session.add_turn, hgoc, hsr, hres, hex,
              successResponse]
          · exact extractOutput_obj_ok_ne_empty kvs out hex
        all_goals
          refine ⟨(sessionAfterTurn s0 msg gT now).finalizeTurnError trValidationMsg,
            erroredTurn msg gT now trValidationMsg, hgoc, ?_, ?_, rfl, rfl,
            Or.inr ⟨trValidationMsg,
              ⟨.unexpected, "Unexpected error: " ++ trValidationMsg⟩,
              ?_, rfl, rfl, ?_⟩⟩
        all_goals first
          | (simp only [send_message, Session.add_turn, hgoc, hsr, hres, hex,
              trValidationMsg]
             exact store_store_lookup sm1 _ s0 _ _ hlk)
          | exact finalizeTurnError_turns s0 _ now _
          | (intro ce hce
             exact absurd hce (by simp))
          | simp only [send_message, Session.add_turn, hgoc, hsr, hres, hex,
              trValidationMsg]

/-- C3: whenever `send_message` returns successfully, the resolved
session's turn list has grown by exactly one, and the appended turn
carries a non-empty `output_text` and no `error`. -/
theorem send_message_success_appends_turn (sm : SessionManager) (url msg : String)
    (sid? : Option String) (kwargs : JObj) (gS gT gM : String) (now : Int)
    (reply : HttpReply) (tr : TaskResponse)
    (h : (send_message sm url msg sid? kwargs gS gT gM now reply).1 = .ok tr) :
    ∃ s0 sm1 s1,
      sm.get_or_create_session (sid?.getD gS) url none now = (.ok s0, sm1) ∧
      (send_message sm url msg sid? kwargs gS gT gM now reply).2.lookup (sid?.getD gS)
        = some s1 ∧
      s1.turns.length = s0.turns.length + 1 ∧
      ∃ t out, s1.turns.getLast? = some t ∧
        t.output_text = some out ∧ out ≠ "" ∧ t.error = none := by
  obtain ⟨s0, sm1, s1, tfin, hgoc, hlook, hturns, _, _, hdisj⟩ :=
    send_message_anatomy sm url msg sid? kwargs gS gT gM now reply
  refine ⟨s0, sm1, s1, hgoc, hlook, ?_, ?_⟩
  · rw [hturns, List.length_append]
    rfl
  · rcases hdisj with ⟨resp, out, kvsr, hok, hres, hout, herr, hne⟩ |
      ⟨emsg, e, herr2, _, _, _⟩
    · exact ⟨tfin, out, by rw [hturns]; exact List.getLast?_concat _, hout, hne, herr⟩
    · rw [h] at herr2
      exact absurd herr2 (by simp)

/-- C4: whenever the Transport call of `send_message` raises an
`A2AConnectionError`, the resolved session's turn list still grows by
exactly one, the appended turn's `error` is the (non-empty) failure
text while `output_text` stays unset, and the call re-raises a
`SyncClientError` of the connection kind wrapping the cause. -/
theorem send_message_transport_failure_records_error (sm : SessionManager)
    (url msg : String) (sid? : Option String) (kwargs : JObj) (gS gT gM : String)
    (now : Int) (reply : HttpReply) (ce : A2AConnectionError)
    (h : send_request "message/send" (some (buildRequestParams msg gM kwargs))
      (some (RpcId.s gT)) reply = .connError ce) :
    ∃ s0 sm1 s1,
      sm.get_or_create_session (sid?.getD gS) url none now = (.ok s0, sm1) ∧
      (send_message sm url msg sid? kwargs gS gT gM now reply).1 =
        .error ⟨.connection, "Connection error: " ++ ce.message⟩ ∧
      (send_message sm url msg sid? kwargs gS gT gM now reply).2.lookup (sid?.getD gS)
        = some s1 ∧
      s1.turns.length = s0.turns.length + 1 ∧
      ∃ t, s1.turns.getLast? = some t ∧
        t.error = some ce.message ∧ ce.message ≠ "" ∧ t.output_text = none := by
  obtain ⟨s0, sm1, s1, tfin, hgoc, hlook, hturns, _, _, hdisj⟩ :=
    send_message_anatomy sm url msg sid? kwargs gS gT gM now reply
  rcases hdisj with ⟨resp, out, kvsr, hok, _, _, _, _⟩ |
    ⟨emsg, e, herr, hterr, htout, hconn⟩
  · rw [h] at hok
    exact absurd hok (by simp)
  · obtain ⟨hmsg, he⟩ := hconn ce h
    refine ⟨s0, sm1, s1, hgoc, ?_, hlook, ?_, tfin, ?_, ?_, ?_, htout⟩
    · rw [herr, he]
    · rw [hturns, List.length_append]
      rfl
    · rw [hturns]
      exact List.getLast?_concat _
    · rw [hterr, hmsg]
    · exact send_request_connError_ne_empty _ _ _ _ _ h

/-- C9: every turn created by a `send_message` call ends the call with
exactly one of its two terminal fields set — `output_text` set and
`error` unset on the success path, or `error` set and `output_text`
unset on every failure path; never both. -/
theorem send_message_turn_exactly_one_terminal (sm : SessionManager)
    (url msg : String) (sid? : Option String) (kwargs : JObj) (gS gT gM : String)
    (now : Int) (reply : HttpReply) :
    ∃ s1 t,
      (send_message sm url msg sid? kwargs gS gT gM now reply).2.lookup (sid?.getD gS)
        = some s1 ∧
      s1.turns.getLast? = some t ∧
      ((∃ o, t.output_text = some o ∧ t.error = none) ∨
       (∃ e, t.error = some e ∧ t.output_text = none)) := by
  obtain ⟨s0, sm1, s1, tfin, hgoc, hlook, hturns, _, _, hdisj⟩ :=
    send_message_anatomy sm url msg sid? kwargs gS gT gM now reply
  refine ⟨s1, tfin, hlook, by rw [hturns]; exact List.getLast?_concat _, ?_⟩
  rcases hdisj with ⟨resp, out, kvsr, _, _, hout, herr, _⟩ |
    ⟨emsg, e, _, hterr, htout, _⟩
  · exact Or.inl ⟨out, hout, herr⟩
  · exact Or.inr ⟨emsg, hterr, htout⟩

/-- The result object `{artifacts: [{parts: [{kind:"text", text:"hi"}]}]}`. -/
def okResultObj : JObj :=
  JObj.ofList [("artifacts", .arr (JArr.ofList
    [.obj (JObj.ofList [("parts", .arr (JArr.ofList
      [.obj (JObj.ofList [("kind", .str "text"), ("text", .str "hi")])]))])]))]

/-- A 2xx reply carrying that result. -/
def okReply : HttpReply :=
  .goodJson (.obj (JObj.ofList [("jsonrpc", .str "2.0"), ("id", .str "t1"),
    ("result", .obj okResultObj)]))

theorem send_message_success_appends_turn_witness :
    (send_message {} "http://a" "hello" (some "s1") .nil "g" "t1" "m1" 5 okReply).1 =
      .ok (successResponse "t1" "s1" "hi" okResultObj) ∧
    (∃ s0 sm1 s1,
      SessionManager.get_or_create_session {} "s1" "http://a" none 5 = (.ok s0, sm1) ∧
      (send_message {} "http://a" "hello" (some "s1") .nil "g" "t1" "m1" 5 okReply).2.lookup "s1"
        = some s1 ∧
      s1.turns.length = s0.turns.length + 1 ∧
      ∃ t out, s1.turns.getLast? = some t ∧
        t.output_text = some out ∧ out ≠ "" ∧ t.error = none) :=
  ⟨rfl, send_message_success_appends_turn {} "http://a" "hello" (some "s1") .nil
    "g" "t1" "m1" 5 okReply (successResponse "t1" "s1" "hi" okResultObj) rfl⟩

theorem send_message_transport_failure_records_error_witness :
    send_request "message/send" (some (buildRequestParams "hello" "m1" .nil))
      (some (RpcId.s "t1")) (.transportFail "boom") =
      .connError ⟨"Request error: boom", none⟩ ∧
    (∃ s0 sm1 s1,
      SessionManager.get_or_create_session {} "s1" "http://a" none 5 = (.ok s0, sm1) ∧
      (send_message {} "http://a" "hello" (some "s1") .nil "g" "t1" "m1" 5
        (.transportFail "boom")).1 =
        .error ⟨.connection, "Connection error: " ++ "Request error: boom"⟩ ∧
      (send_message {} "http://a" "hello" (some "s1") .nil "g" "t1" "m1" 5
        (.transportFail "boom")).2.lookup "s1" = some s1 ∧
      s1.turns.length = s0.turns.length + 1 ∧
      ∃ t, s1.turns.getLast? = some t ∧
        t.error = some "Request error: boom" ∧ ("Request error: boom" : String) ≠ "" ∧
        t.output_text = none) :=
  ⟨rfl, send_message_transport_failure_records_error {} "http://a" "hello"
    (some "s1") .nil "g" "t1" "m1" 5 (.transportFail "boom")
    ⟨"Request error: boom", none⟩ rfl⟩

/-- Did this thread's `get_or_create_session` call return a Session? -/
def GocPhase.isOk : GocPhase → Bool
  | .done (.ok _) => true
  | _ => false

/-- Did this thread's call raise the duplicate-session `ValueError`? -/
def GocPhase.isDupErr : GocPhase → Bool
  | .done (.error _) => true
  | _ => false

/-- Object identity of the returned Session, when the call returned
one. -/
def GocPhase.oidOf : GocPhase → Option Nat
  | .done (.ok s) => some s.oid
  | _ => none

/-- C1 counterexample: under the interleaving "thread 1 lookup, thread 2
lookup, thread 1 create, thread 2 create" of two
`get_or_create_session("s1", ...)` calls on an empty registry, thread 1
returns the created Session while thread 2 fails with the
duplicate-session `ValueError` — refuting the claim that neither
concurrent call can fail with a duplicate-session error. -/
theorem get_or_create_race_counterexample :
    (runTwoGoc "s1" "http://a" 0 [true, false, true, false]
      {} .start .start).2.1 = .done (.ok dupSession) ∧
    (runTwoGoc "s1" "http://a" 0 [true, false, true, false]
      {} .start .start).2.2 =
      .done (.error ⟨"Session s1 already exists"⟩) :=
  ⟨rfl, rfl⟩

/-- C1 amended: over every complete interleaving of two
`get_or_create_session` calls with the same new id on an empty registry,
exactly one Session object is ever created (the creation counter ends at
one and the registry holds exactly one entry for the id); when both
calls return a Session it is the very same object; at least one call
returns a Session and the two calls never both fail — but the lookup
and the duplicate-checked insertion are two separately locked steps,
not one atomic step, so the losing call may fail with the
duplicate-session error instead of observing the created Session. -/
theorem get_or_create_race_amended (a b c d : Bool) (sid url : String) (now : Int)
    (h : [a, b, c, d].count true = 2) :
    (runTwoGoc sid url now [a, b, c, d] {} .start .start).1.nextOid = 1 ∧
    (runTwoGoc sid url now [a, b, c, d] {} .start .start).1.sessions.map Prod.fst
      = [sid] ∧
    ((runTwoGoc sid url now [a, b, c, d] {} .start .start).2.1.isOk ||
     (runTwoGoc sid url now [a, b, c, d] {} .start .start).2.2.isOk) = true ∧
    ((runTwoGoc sid url now [a, b, c, d] {} .start .start).2.1.isDupErr &&
     (runTwoGoc sid url now [a, b, c, d] {} .start .start).2.2.isDupErr) = false ∧
    ((runTwoGoc sid url now [a, b, c, d] {} .start .start).2.1.isOk = true →
     (runTwoGoc sid url now [a, b, c, d] {} .start .start).2.2.isOk = true →
     (runTwoGoc sid url now [a, b, c, d] {} .start .start).2.1.oidOf =
       (runTwoGoc sid url now [a, b, c, d] {} .start .start).2.2.oidOf) := by
  cases a <;> cases b <;> cases c <;> cases d <;>
    simp_all [runTwoGoc, gocThreadStep, SessionManager.get_session,
      SessionManager.lookup, SessionManager.create_session, SessionManager.store,
      GocPhase.isOk, GocPhase.isDupErr, GocPhase.oidOf, List.find?]

theorem get_or_create_race_amended_witness :
    ([true, true, false, false].count true = 2) ∧
    ((runTwoGoc "s1" "u" 0 [true, true, false, false] {} .start .start).1.nextOid = 1 ∧
    (runTwoGoc "s1" "u" 0 [true, true, false, false] {} .start .start).1.sessions.map Prod.fst
      = ["s1"] ∧
    ((runTwoGoc "s1" "u" 0 [true, true, false, false] {} .start .start).2.1.isOk ||
     (runTwoGoc "s1" "u" 0 [true, true, false, false] {} .start .start).2.2.isOk) = true ∧
    ((runTwoGoc "s1" "u" 0 [true, true, false, false] {} .start .start).2.1.isDupErr &&
     (runTwoGoc "s1" "u" 0 [true, true, false, false] {} .start .start).2.2.isDupErr) = false ∧
    ((runTwoGoc "s1" "u" 0 [true, true, false, false] {} .start .start).2.1.isOk = true →
     (runTwoGoc "s1" "u" 0 [true, true, false, false] {} .start .start).2.2.isOk = true →
     (runTwoGoc "s1" "u" 0 [true, true, false, false] {} .start .start).2.1.oidOf =
       (runTwoGoc "s1" "u" 0 [true, true, false, false] {} .start .start).2.2.oidOf)) :=
  ⟨by decide, get_or_create_race_amended true true false false "s1" "u" 0 (by decide)⟩

/-- Concatenation of a list of strings. -/
def concatStrs : List String → String
  | [] => ""
  | s :: rest => s ++ concatStrs rest

/-- The spec's wording, per part: the `text` of a part whose `kind` is
`"text"` and which has a `text` field, followed by a newline. -/
def specPartText (part : Json) : String :=
  match part with
  | .obj kvs =>
    match kvs.find "kind", kvs.find "text" with
    | some (.str "text"), some (.str t) => t ++ "\n"
    | _, _ => ""
  | _ => ""

/-- The spec's wording, per artifact: concatenate over its `parts`. -/
def specArtifactTexts (artifact : Json) : String :=
  match artifact with
  | .obj kvs =>
    match kvs.find "parts" with
    | some (.arr parts) => concatStrs (parts.toList.map specPartText)
    | _ => ""
  | _ => ""

/-- The spec's wording, per result: concatenate over its `artifacts`. -/
def specConcatTexts (result : Json) : String :=
  match result with
  | .obj kvs =>
    match kvs.find "artifacts" with
    | some (.arr artifacts) => concatStrs (artifacts.toList.map specArtifactTexts)
    | _ => ""
  | _ => ""

/-- The extraction exactly as the C5 claim words it: trim TRAILING
whitespace only, then fall back to the string rendering when empty. -/
def claimExtract (result : Json) : String :=
  let t := trimTrailing (specConcatTexts result)
  if t = "" then pyStr result else t

/-- The extraction as amended: trim leading AND trailing whitespace
(Python `strip()`), then fall back to the string rendering when empty. -/
def specExtract (result : Json) : String :=
  let t := pyStrip (specConcatTexts result)
  if t = "" then pyStr result else t

/-- A part value on which the extraction code cannot raise: a dict
whose `text` value is a string whenever its `kind` is `"text"` and a
`text` key is present. -/
def wellShapedPart (p : Json) : Bool :=
  match p with
  | .obj kvs =>
    match kvs.find "kind", kvs.find "text" with
    | some (.str "text"), some v =>
      match v with
      | .str _ => true
      | _ => false
    | _, _ => true
  | _ => false

/-- An artifact value on which the extraction code cannot raise: a dict
whose `parts` member, when present, is a list of well-shaped parts. -/
def wellShapedArtifact (a : Json) : Bool :=
  match a with
  | .obj kvs =>
    match kvs.find "parts" with
    | none => true
    | some (.arr parts) => parts.toList.all wellShapedPart
    | some _ => false
  | _ => false

/-- A result value of the shape the protocol promises (§6 of the spec):
a JSON object whose `artifacts` member, when present, is a list of
well-shaped artifacts. -/
def wellShaped (r : Json) : Bool :=
  match r with
  | .obj kvs =>
    match kvs.find "artifacts" with
    | none => true
    | some (.arr arts) => arts.toList.all wellShapedArtifact
    | some _ => false
  | _ => false

theorem extractPartStep_ws (acc : String) (p : Json)
    (hp : wellShapedPart p = true) :
    extractPartStep acc p = .ok (acc ++ specPartText p) := by
  cases p with
  | obj kvs =>
    unfold extractPartStep specPartText
    cases hk : kvs.find "kind" with
    | none => simp [hk, String.append_empty]
    | some v =>
      cases v with
      | str s =>
        by_cases hs : s = "text"
        · subst hs
          cases ht : kvs.find "text" with
          | none => simp [hk, ht, String.append_empty]
          | some w =>
            cases w with
            | str t => simp [hk, ht, String.append_assoc]
            | null => simp [wellShapedPart, hk, ht] at hp
            | bool b => simp [wellShapedPart, hk, ht] at hp
            | num n => simp [wellShapedPart, hk, ht] at hp
            | arr xs => simp [wellShapedPart, hk, ht] at hp
            | obj o => simp [wellShapedPart, hk, ht] at hp
        · simp [hk, hs, String.append_empty]
      | null => simp [hk, String.append_empty]
      | bool b => simp [hk, String.append_empty]
      | num n => simp [hk, String.append_empty]
      | arr xs => simp [hk, String.append_empty]
      | obj o => simp [hk, String.append_empty]
  | null => simp [wellShapedPart] at hp
  | bool b => simp [wellShapedPart] at hp
  | num n => simp [wellShapedPart] at hp
  | str s => simp [wellShapedPart] at hp
  | arr xs => simp [wellShapedPart] at hp

theorem extractPartsLoop_ws (ps : List Json) :
    ∀ acc, ps.all wellShapedPart = true →
    extractPartsLoop acc ps = .ok (acc ++ concatStrs (ps.map specPartText)) := by
  induction ps with
  | nil => intro acc _; simp [extractPartsLoop, concatStrs, String.append_empty]
  | cons p ps ih =>
    intro acc hall
    simp only [List.all_cons, Bool.and_eq_true] at hall
    unfold extractPartsLoop
    rw [extractPartStep_ws acc p hall.1]
    show extractPartsLoop (acc ++ specPartText p) ps
      = .ok (acc ++ concatStrs (List.map specPartText (p :: ps)))
    rw [ih _ hall.2]
    simp [concatStrs, String.append_assoc]

theorem extractArtifactStep_ws (acc : String) (a : Json)
    (ha : wellShapedArtifact a = true) :
    extractArtifactStep acc a = .ok (acc ++ specArtifactTexts a) := by
  cases a with
  | obj kvs =>
    unfold extractArtifactStep specArtifactTexts pyIn
    cases hk : kvs.find "parts" with
    | none => simp [JObj.hasKey, hk, String.append_empty]
    | some v =>
      cases v with
      | arr parts =>
        simp only [wellShapedArtifact, hk] at ha
        simp only [JObj.hasKey, hk, Option.isSome_some, pySubscript, pyIter]
        rw [extractPartsLoop_ws parts.toList acc ha]
      | null => simp [wellShapedArtifact, hk] at ha
      | bool b => simp [wellShapedArtifact, hk] at ha
      | num n => simp [wellShapedArtifact, hk] at ha
      | str s => simp [wellShapedArtifact, hk] at ha
      | obj o => simp [wellShapedArtifact, hk] at ha
  | null => simp [wellShapedArtifact] at ha
  | bool b => simp [wellShapedArtifact] at ha
  | num n => simp [wellShapedArtifact] at ha
  | str s => simp [wellShapedArtifact] at ha
  | arr xs => simp [wellShapedArtifact] at ha

theorem extractArtifactsLoop_ws (l : List Json) :
    ∀ acc, l.all wellShapedArtifact = true →
    extractArtifactsLoop acc l = .ok (acc ++ concatStrs (l.map specArtifactTexts)) := by
  induction l with
  | nil => intro acc _; simp [extractArtifactsLoop, concatStrs, String.append_empty]
  | cons a l ih =>
    intro acc hall
    simp only [List.all_cons, Bool.and_eq_true] at hall
    unfold extractArtifactsLoop
    rw [extractArtifactStep_ws acc a hall.1]
    show extractArtifactsLoop (acc ++ specArtifactTexts a) l
      = .ok (acc ++ concatStrs (List.map specArtifactTexts (a :: l)))
    rw [ih _ hall.2]
    simp [concatStrs, String.append_assoc]

/-- C5 amended: for every result of the protocol's promised shape, the
extraction code succeeds and computes exactly the spec formula with
`strip()` semantics (leading AND trailing whitespace trimmed) and the
string-rendering fallback; since such a result is a JSON object, whose
rendering is never empty, the extracted output is never the empty
string. -/
theorem extract_output_spec (r : Json) (hr : wellShaped r = true) :
    extractOutput r = .ok (specExtract r) ∧ specExtract r ≠ "" := by
  cases r with
  | obj kvs =>
    cases hk : kvs.find "artifacts" with
    | none =>
      have hspec : specExtract (.obj kvs) = pyStr (.obj kvs) := by
        simp [specExtract, specConcatTexts, hk, show pyStrip "" = "" from rfl]
      constructor
      · rw [hspec]
        simp [extractOutput, pyIn, JObj.hasKey, hk,
          show pyStrip "" = "" from rfl]
      · rw [hspec]
        exact pyStr_obj_ne_empty kvs
    | some v =>
      cases v with
      | arr arts =>
        simp only [wellShaped, hk] at hr
        have hacc : extractArtifactsLoop "" arts.toList =
            .ok ("" ++ concatStrs (arts.toList.map specArtifactTexts)) :=
          extractArtifactsLoop_ws arts.toList "" hr
        have hspec : specExtract (.obj kvs) =
            (if pyStrip (concatStrs (arts.toList.map specArtifactTexts)) = ""
             then pyStr (.obj kvs)
             else pyStrip (concatStrs (arts.toList.map specArtifactTexts))) := by
          simp [specExtract, specConcatTexts, hk]
        constructor
        · rw [hspec]
          simp only [extractOutput, pyIn, JObj.hasKey, hk, Option.isSome_some,
            pySubscript, pyIter, if_true, ite_true, hacc, String.empty_append]
        · rw [hspec]
          by_cases hh : pyStrip (concatStrs (arts.toList.map specArtifactTexts)) = ""
          · rw [if_pos hh]
            exact pyStr_obj_ne_empty kvs
          · rw [if_neg hh]
            exact hh
      | null => simp [wellShaped, hk] at hr
      | bool b => simp [wellShaped, hk] at hr
      | num n => simp [wellShaped, hk] at hr
      | str s => simp [wellShaped, hk] at hr
      | obj o => simp [wellShaped, hk] at hr
  | null => simp [wellShaped] at hr
  | bool b => simp [wellShaped] at hr
  | num n => simp [wellShaped] at hr
  | str s => simp [wellShaped] at hr
  | arr xs => simp [wellShaped] at hr

/-- A result whose only text part has a leading space:
`{artifacts: [{parts: [{kind:"text", text:" hi"}]}]}`. -/
def wsResult : Json :=
  .obj (JObj.ofList [("artifacts", .arr (JArr.ofList
    [.obj (JObj.ofList [("parts", .arr (JArr.ofList
      [.obj (JObj.ofList [("kind", .str "text"), ("text", .str " hi")])]))])]))])

/-- C5 counterexample: (i) the code's `strip()` removes the LEADING
space too, so the extraction is `"hi"` while the claim's trailing-only
trim prescribes `" hi"`; (ii) for the result `""` (a non-object, yet a
non-null Transport result) the extraction yields the empty string, while
the claim says the output is never empty. -/
theorem extract_output_claim_counterexample :
    extractOutput wsResult = .ok "hi" ∧
    claimExtract wsResult = " hi" ∧
    ("hi" : String) ≠ " hi" ∧
    extractOutput (.str "") = .ok "" :=
  ⟨rfl, rfl, by decide, rfl⟩

theorem extract_output_spec_witness :
    wellShaped (.obj okResultObj) = true ∧
    (extractOutput (.obj okResultObj) = .ok (specExtract (.obj okResultObj)) ∧
      specExtract (.obj okResultObj) ≠ "") :=
  ⟨rfl, extract_output_spec (.obj okResultObj) rfl⟩

theorem cleanupLoop_eq (t n : Int) (l : List (String × Session)) :
    cleanupLoop t n l =
      ((l.filter (fun p => p.2.is_expired t n)).map Prod.fst,
       l.filter (fun p => !p.2.is_expired t n),
       (l.filter (fun p => p.2.is_expired t n)).map
         (fun p => { p.2 with is_active := false })) := by
  induction l with
  | nil => rfl
  | cons hd tl ih =>
    obtain ⟨sid, s⟩ := hd
    simp only [cleanupLoop, ih]
    by_cases he : s.is_expired t n
    · simp [List.filter_cons, he]
    · simp [List.filter_cons, he]

/-- C7 amended: the sweep's effective threshold is the Python
expression `timeout_minutes or default`, under which an explicit
threshold of `0` (like an absent one) is replaced by the store default;
against that effective threshold the sweep removes a session exactly
when `now - last_activity` strictly exceeds it, marks every removed
session inactive before removal, returns exactly the removed ids, and
keeps every session whose `last_activity` is within the threshold —
including one whose refreshed `last_activity` saves it although
`now - created_at` would have expired it. -/
theorem cleanup_expired_sessions_spec (sm : SessionManager) (tm : Option Int)
    (now : Int) (sid : String) (s : Session)
    (hnd : (sm.sessions.map Prod.fst).Nodup)
    (hmem : (sid, s) ∈ sm.sessions)
    (hfresh : now - s.last_activity ≤ 60 * effectiveTimeout tm sm.default_timeout) :
    (sm.cleanup_expired_sessions tm now).1 =
      (sm.sessions.filter (fun p =>
        decide (now - p.2.last_activity > 60 * effectiveTimeout tm sm.default_timeout))).map
        Prod.fst ∧
    (sm.cleanup_expired_sessions tm now).2.sessions =
      sm.sessions.filter (fun p =>
        !decide (now - p.2.last_activity > 60 * effectiveTimeout tm sm.default_timeout)) ∧
    (∀ ms ∈ sm.cleanup_marked tm now, ms.is_active = false) ∧
    sid ∉ (sm.cleanup_expired_sessions tm now).1 ∧
    (sid, s) ∈ (sm.cleanup_expired_sessions tm now).2.sessions := by
  have hids : (sm.cleanup_expired_sessions tm now).1 =
      (sm.sessions.filter (fun p =>
        p.2.is_expired (effectiveTimeout tm sm.default_timeout) now)).map Prod.fst := by
    simp only [SessionManager.cleanup_expired_sessions]
    rw [cleanupLoop_eq]
  have hkeep : (sm.cleanup_expired_sessions tm now).2.sessions =
      sm.sessions.filter (fun p =>
        !p.2.is_expired (effectiveTimeout tm sm.default_timeout) now) := by
    simp only [SessionManager.cleanup_expired_sessions]
    rw [cleanupLoop_eq]
  refine ⟨hids, hkeep, ?_, ?_, ?_⟩
  · intro ms hms
    simp only [SessionManager.cleanup_marked] at hms
    rw [cleanupLoop_eq] at hms
    simp only [List.mem_map] at hms
    obtain ⟨p, _, hp⟩ := hms
    rw [← hp]
  · rw [hids]
    intro hin
    simp only [List.mem_map, List.mem_filter] at hin
    obtain ⟨p, ⟨hpmem, hpexp⟩, hpfst⟩ := hin
    have hps : p = (sid, s) := by
      have := List.inj_on_of_nodup_map hnd hpmem hmem
      exact this hpfst
    rw [hps] at hpexp
    simp only [Session.is_expired, decide_eq_true_eq] at hpexp
    omega
  · rw [hkeep]
    simp only [List.mem_filter]
    refine ⟨hmem, ?_⟩
    simp only [Session.is_expired, Bool.not_eq_true', decide_eq_false_iff_not]
    omega

/-- C7 counterexample: a store whose only session has been idle for 300
seconds (5 minutes).  A sweep called with threshold 0 removes nothing —
Python's `timeout_minutes or self.default_timeout` treats 0 as absent
and the default of 60 minutes applies — although `now - last_activity`
strictly exceeds a 0-minute threshold; a sweep with threshold 1 does
remove the session. -/
theorem cleanup_zero_threshold_counterexample :
    (dupStore.cleanup_expired_sessions (some 0) 300).1 = [] ∧
    ((300 : Int) - 0 > 60 * 0) ∧
    (dupStore.cleanup_expired_sessions (some 1) 300).1 = ["s1"] :=
  ⟨rfl, by decide, rfl⟩

/-- A session created at time 0 whose activity was refreshed at 280. -/
def freshSession : Session :=
  { oid := 0, session_id := "s2", agent_url := "u", created_at := 0, last_activity := 280 }

/-- A one-session store for the C7 witness. -/
def freshStore : SessionManager :=
  { sessions := [("s2", freshSession)], default_timeout := 60, nextOid := 1 }

theorem cleanup_expired_sessions_spec_witness :
    (freshStore.sessions.map Prod.fst).Nodup ∧
    ("s2", freshSession) ∈ freshStore.sessions ∧
    ((300 : Int) - freshSession.last_activity ≤
      60 * effectiveTimeout (some 1) freshStore.default_timeout) ∧
    ((freshStore.cleanup_expired_sessions (some 1) 300).1 =
      (freshStore.sessions.filter (fun p =>
        decide ((300 : Int) - p.2.last_activity >
          60 * effectiveTimeout (some 1) freshStore.default_timeout))).map Prod.fst ∧
    (freshStore.cleanup_expired_sessions (some 1) 300).2.sessions =
      freshStore.sessions.filter (fun p =>
        !decide ((300 : Int) - p.2.last_activity >
          60 * effectiveTimeout (some 1) freshStore.default_timeout)) ∧
    (∀ ms ∈ freshStore.cleanup_marked (some 1) 300, ms.is_active = false) ∧
    "s2" ∉ (freshStore.cleanup_expired_sessions (some 1) 300).1 ∧
    ("s2", freshSession) ∈ (freshStore.cleanup_expired_sessions (some 1) 300).2.sessions) :=
  ⟨by decide, by decide, by decide,
    cleanup_expired_sessions_spec freshStore (some 1) 300 "s2" freshSession
      (by decide) (by decide) (by decide)⟩
